import Mathlib

/-!
Verification of the ForsetiFlow login/verification client
(`src/static/login.js` and the TOTP-only variant in the second script of
`src/unnamed/part_002`) against its natural-language specification.

The JavaScript is shallowly embedded: module-scope mutable variables and the
DOM-visible status line become fields of an explicit state record, each event
handler becomes a pure function from the previous state (plus the outcome of
the one HTTP call it may perform) to the next state together with the list of
HTTP requests it issued.  JavaScript truthiness on optional strings
(`undefined`/`null`/`""` are falsy, every other string truthy) is modelled
explicitly.
-/

namespace ForsetiFlow

/-- JS truthiness of a possibly-absent string value: `undefined`/`null`
(modelled as `none`) and the empty string are falsy, all other strings are
truthy. -/
def truthyStr : Option String → Bool
  | none => false
  | some s => s ≠ ""

/-- JS `a || b` restricted to possibly-absent string values: returns `a` when
`a` is truthy, otherwise `b`. -/
def orJS (a b : Option String) : Option String :=
  if truthyStr a then a else b

/-- Model of the JS builtin `String.prototype.trim`: strips leading and
trailing whitespace.  Defined over the character list so that it evaluates by
kernel reduction (Lean's own `String.trim` goes through `Substring` code that
does not reduce definitionally). -/
def jsTrim (s : String) : String :=
  ⟨((s.data.dropWhile Char.isWhitespace).reverse.dropWhile Char.isWhitespace).reverse⟩

/-- The structured fields of a parsed JSON error body that
`safeFetch` (login.js lines 46-59) inspects: `message` and `error`.
`none` models an absent field. -/
structure ErrorBody where
  message : Option String
  error : Option String
deriving DecidableEq, Repr

/-- The data `parseResponse` (login.js lines 33-44) hands to `safeFetch`:
the HTTP success flag and status phrase of the response, the raw body text
(`""` for an empty body), and `json`, the result of `JSON.parse` on the text
(`none` when the text is empty or does not parse). -/
structure ParsedResponse where
  ok : Bool
  statusText : String
  text : String
  json : Option ErrorBody
deriving DecidableEq, Repr

/-- The error-message extraction of `safeFetch` (login.js lines 50-56),
evaluated when `ok` is false:
`(parsed.json && (parsed.json.message || parsed.json.error)) || parsed.text
 || parsed.response.statusText || "Request failed"`.
`null && e` is falsy, so a missing JSON body falls through to the text;
`m || e` picks `m` only when it is truthy (non-empty). -/
def errorMessage (r : ParsedResponse) : String :=
  let fromJson : Option String :=
    match r.json with
    | none => none
    | some b => orJS b.message b.error
  match orJS (orJS (orJS fromJson (some r.text)) (some r.statusText)) (some "Request failed") with
  | some s => s
  | none => "Request failed"

/-- The message-selection rule exactly as claim C1 states it (for comparison
with `errorMessage`, which is translated from the source): the structured
`message` field of the parsed body if present, otherwise the structured
`error` field, otherwise the raw body text, otherwise the HTTP status phrase,
otherwise `"Request failed"`. -/
def claimedErrorMessage (r : ParsedResponse) : String :=
  match r.json with
  | some b =>
    match b.message with
    | some m => m
    | none =>
      match b.error with
      | some e => e
      | none => if r.text ≠ "" then r.text else if r.statusText ≠ "" then r.statusText else "Request failed"
  | none => if r.text ≠ "" then r.text else if r.statusText ≠ "" then r.statusText else "Request failed"

/-- The amended selection rule: a structured field is used only when it is
present and non-empty (JS-truthy), the raw body text and the status phrase
only when non-empty. -/
def amendedErrorMessage (r : ParsedResponse) : String :=
  let fieldPick : String :=
    match r.json with
    | none => ""
    | some b =>
      match b.message with
      | some m => if m ≠ "" then m else b.error.getD ""
      | none => b.error.getD ""
  if fieldPick ≠ "" then fieldPick
  else if r.text ≠ "" then r.text
  else if r.statusText ≠ "" then r.statusText
  else "Request failed"

/-- The credentials collected from the login form (login.js lines 61-71):
trimmed identifier and raw password. -/
structure Credentials where
  identifier : String
  password : String
deriving DecidableEq, Repr

/-- Status-line rendering variant set by `setStatus` (login.js lines 11-16):
the second argument, `"error"` or the default `"muted"`. -/
inductive Variant where
  | muted
  | error
deriving DecidableEq, Repr

/-- Which of the two forms is visible (login.js toggles the `hidden` class on
`login-form` and `verification-form`); this is the UI state the spec calls
`AwaitingCredentials` / `AwaitingCode`. -/
inductive UIState where
  | AwaitingCredentials
  | AwaitingCode
deriving DecidableEq, Repr

/-- The client-side state of login.js: the module-scope mutables
`pendingToken` and `lastCredentials` (lines 8-9), the visible status line and
its variant, which form is shown, and where `window.location.href` was last
assigned (`none` = no navigation yet).  `statusLog` is a ghost field recording
every `setStatus` call in order, so that messages that are later overwritten
can still be stated about. -/
structure ClientState where
  pendingToken : Option String
  lastCredentials : Option Credentials
  status : String
  statusVariant : Variant
  ui : UIState
  navigatedTo : Option String
  statusLog : List (String × Variant)
deriving DecidableEq, Repr

/-- The initial state: both mutables `null` (login.js lines 8-9), login form
visible, empty status line. -/
def initState : ClientState :=
  { pendingToken := none, lastCredentials := none, status := "", statusVariant := .muted,
    ui := .AwaitingCredentials, navigatedTo := none, statusLog := [] }

/-- `setStatus(message, variant)` (login.js lines 11-16): writes the status
line and toggles the error/muted classes.  Also appends to the ghost log. -/
def setStatus (s : ClientState) (message : String) (variant : Variant) : ClientState :=
  { s with status := message, statusVariant := variant,
           statusLog := s.statusLog ++ [(message, variant)] }

/-- `showVerificationForm(hint)` (login.js lines 18-24): hides the login form,
shows the verification form, and sets the code-sent status; the hint is used
only when truthy. -/
def showVerificationForm (hint : Option String) (s : ClientState) : ClientState :=
  setStatus { s with ui := .AwaitingCode }
    (if truthyStr hint then "Code sent to " ++ hint.getD "" ++ "." else "Code sent to your phone.")
    .muted

/-- `showLoginForm()` (login.js lines 26-31): nulls `pendingToken`, shows the
login form, clears the status line.  Note it does not touch
`lastCredentials`. -/
def showLoginForm (s : ClientState) : ClientState :=
  setStatus { s with pendingToken := none, ui := .AwaitingCredentials } "" .muted

/-- An HTTP request issued through `safeFetch`, identified by endpoint and
JSON body. -/
inductive Request where
  | start (body : Credentials)
  | verify (token : String) (code : String)
deriving DecidableEq, Repr

/-- The success payload of `POST /api/auth/start` as `safeFetch` returns it
(`parsed.json || {}`): both fields may be absent. -/
structure StartPayload where
  token : Option String
  phone_hint : Option String
deriving DecidableEq, Repr

/-- Outcome of the one `safeFetch("/api/auth/start", ...)` call of
`requestCode`, supplied by the environment: `success` is a 2xx response with
its payload; `failure msg` is a thrown error, covering both a non-2xx
response (`msg = errorMessage` of the parsed response) and a transport
failure. -/
inductive StartResult where
  | success (payload : StartPayload)
  | failure (msg : String)
deriving DecidableEq, Repr

/-- The success payload of `POST /api/auth/verify`. -/
structure VerifyPayload where
  redirect : Option String
deriving DecidableEq, Repr

/-- Outcome of the one `safeFetch("/api/auth/verify", ...)` call, as for
`StartResult`. -/
inductive VerifyResult where
  | success (payload : VerifyPayload)
  | failure (msg : String)
deriving DecidableEq, Repr

/-- `requestCode(credentials)` (login.js lines 73-86): sets the sending
status, POSTs the credentials to `/api/auth/start`; on success stores
`payload.token` and the credentials and shows the verification form; on
error only sets the error status.  Returns the new state and the requests
issued. -/
def requestCode (credentials : Credentials) (result : StartResult) (s : ClientState) :
    ClientState × List Request :=
  let s1 := setStatus s "Sending verification code…" .muted
  match result with
  | .success payload =>
    (showVerificationForm payload.phone_hint
      { s1 with pendingToken := payload.token, lastCredentials := some credentials },
     [.start credentials])
  | .failure msg => (setStatus s1 msg .error, [.start credentials])

/-- The raw login-form fields as `FormData` yields them (login.js line 63):
a missing input is `none`. -/
structure LoginFormData where
  identifier : Option String
  password : Option String
deriving DecidableEq, Repr

/-- `extractCredentials()` (login.js lines 61-71): trims the identifier,
takes the password raw; if either is empty it sets the required-fields error
status and returns `null`. -/
def extractCredentials (d : LoginFormData) (s : ClientState) :
    Option Credentials × ClientState :=
  let identifier := jsTrim (d.identifier.getD "")
  let password := d.password.getD ""
  if identifier = "" ∨ password = "" then
    (none, setStatus s "Username/email and password are required." .error)
  else
    (some ⟨identifier, password⟩, s)

/-- The login-form submit handler (login.js lines 88-93), the spec's
`submitCredentials`: extract the credentials; if invalid stop, else run
`requestCode`. -/
def submitCredentials (d : LoginFormData) (result : StartResult) (s : ClientState) :
    ClientState × List Request :=
  match extractCredentials d s with
  | (none, s1) => (s1, [])
  | (some credentials, s1) => requestCode credentials result s1

/-- The raw verification-form field (login.js line 102): `FormData.get("code")`
is `null` when absent. -/
structure VerifyFormData where
  code : Option String
deriving DecidableEq, Repr

/-- The verification-form submit handler (login.js lines 95-117), the spec's
`submitCode`: with no truthy pending token, set the expired error status and
fall back to the login form, issuing no request; with an empty trimmed code,
set the enter-code error status; otherwise POST `{token, code}` to
`/api/auth/verify` and on success navigate to `redirect || "/app"`, on error
set the error status. -/
def submitCode (d : VerifyFormData) (result : VerifyResult) (s : ClientState) :
    ClientState × List Request :=
  if ¬ truthyStr s.pendingToken then
    (showLoginForm (setStatus s "Verification expired. Please sign in again." .error), [])
  else
    let code := jsTrim (d.code.getD "")
    if code = "" then
      (setStatus s "Enter the verification code." .error, [])
    else
      let token := s.pendingToken.getD ""
      let s1 := setStatus s "Verifying code…" .muted
      match result with
      | .success payload =>
        ({ s1 with navigatedTo := some ((orJS payload.redirect (some "/app")).getD "/app") },
         [.verify token code])
      | .failure msg => (setStatus s1 msg .error, [.verify token code])

/-- The resend-button click handler (login.js lines 119-126), the spec's
`resend`: with no cached credentials, set the submit-first error status and
issue no request; otherwise rerun `requestCode` with the cached
credentials. -/
def resend (result : StartResult) (s : ClientState) : ClientState × List Request :=
  match s.lastCredentials with
  | none => (setStatus s "Submit your credentials before requesting another code." .error, [])
  | some credentials => requestCode credentials result s

/-- The back-button click handler (login.js lines 128-131), the spec's
`backToCredentials`: just `showLoginForm()`. -/
def backToCredentials (s : ClientState) : ClientState × List Request :=
  (showLoginForm s, [])

/-- One user-driven operation on the login page, with the outcome of the HTTP
call it may perform supplied by the environment. -/
inductive Op where
  | submitCredentials (d : LoginFormData) (result : StartResult)
  | submitCode (d : VerifyFormData) (result : VerifyResult)
  | resend (result : StartResult)
  | backToCredentials
deriving DecidableEq, Repr

/-- The login-form check of `extractCredentials` as a boolean: the trimmed
identifier and the raw password are both non-empty. -/
def validFormData (d : LoginFormData) : Bool :=
  !(jsTrim (d.identifier.getD "") == "") && !(d.password.getD "" == "")

/-- The operations after which `lastCredentials` can have been (re)assigned
from fresh input: a `submitCredentials` that passes validation and whose
Start call succeeds.  (`resend` also reaches the assignment, but only with
the already-cached credentials.) -/
def successfulStartOp : Op → Bool
  | .submitCredentials d (.success _) => validFormData d
  | _ => false

/-- Dispatch one operation to its handler. -/
def step (s : ClientState) : Op → ClientState × List Request
  | .submitCredentials d result => submitCredentials d result s
  | .submitCode d result => submitCode d result s
  | .resend result => resend result s
  | .backToCredentials => backToCredentials s

/-- Run a sequence of operations from a state, discarding requests. -/
def run (s : ClientState) : List Op → ClientState
  | [] => s
  | op :: ops => run (step s op).1 ops

/-- The non-2xx response whose body text is `{"message": ""}`: the parsed
JSON body carries a present but empty `message` field, and `JSON.parse` of
the text yields exactly that body. -/
def emptyMessageResponse : ParsedResponse :=
  { ok := false, statusText := "Bad Request",
    text := "\x7b\"message\": \"\"\x7d", json := some ⟨some "", none⟩ }

/-- A non-2xx response with body `{"message": "Invalid code"}` (the parsed
JSON body is what `JSON.parse` yields on the text). -/
def invalidCodeResponse : ParsedResponse :=
  { ok := false, statusText := "Bad Request",
    text := "\x7b\"message\": \"Invalid code\"\x7d",
    json := some ⟨some "Invalid code", none⟩ }

/-- A non-2xx response with body `{"error": "bad"}` and no `message` field. -/
def errorBadResponse : ParsedResponse :=
  { ok := false, statusText := "Bad Request",
    text := "\x7b\"error\": \"bad\"\x7d",
    json := some ⟨none, some "bad"⟩ }

/-- An HTTP 500 response with an empty body: `parseResponse` leaves `json`
null when the text is empty. -/
def emptyBodyResponse : ParsedResponse :=
  { ok := false, statusText := "Internal Server Error", text := "", json := none }

/-- The state after one successful `submitCredentials` with credentials
`{identifier: "a", password: "b"}` followed by `backToCredentials`. -/
def afterBackState : ClientState :=
  run initState
    [.submitCredentials ⟨some "a", some "b"⟩ (.success ⟨some "tok1", none⟩),
     .backToCredentials]

/-- A concrete operation sequence containing no successful
`submitCredentials`: a code entry with no token, a back-navigation, an
invalid credentials submission, and a credentials submission whose Start call
fails. -/
def resendWitnessOps : List Op :=
  [.submitCode ⟨some "1234"⟩ (.failure "x"),
   .backToCredentials,
   .submitCredentials ⟨some "", some "p"⟩ (.success ⟨some "t", none⟩),
   .submitCredentials ⟨some "u", some "p"⟩ (.failure "boom")]

/-- The invariant of claim C10: a non-null pending token implies non-null
cached credentials. -/
def Inv (s : ClientState) : Prop :=
  s.pendingToken ≠ none → s.lastCredentials ≠ none

instance (s : ClientState) : Decidable (Inv s) := by
  unfold Inv
  infer_instance

/-- A concrete state mid-handshake: a pending token with matching cached
credentials. -/
def tokenState : ClientState :=
  { initState with pendingToken := some "tok", lastCredentials := some ⟨"a", "b"⟩ }

namespace Totp

/-!
The TOTP-only variant: the login-form submit handler of the second script in
`src/unnamed/part_002` (lines 98-126), which first POSTs the code to
`/api/auth/totp-login` and falls back to `/api/auth/setup-first` when the
login error message matches an account-absence signature.
-/

/-- Does the pattern occur at the head of the list? (helper for
`containsSub`). -/
def startsWithList : List Char → List Char → Bool
  | _, [] => true
  | [], _ :: _ => false
  | c :: cs, p :: ps => c == p && startsWithList cs ps

/-- Does the pattern occur anywhere in the list? -/
def occursList : List Char → List Char → Bool
  | [], pat => pat.isEmpty
  | c :: cs, pat => startsWithList (c :: cs) pat || occursList cs pat

/-- Model of the JS builtin `String.prototype.includes`: substring
containment. -/
def containsSub (s pat : String) : Bool :=
  occursList s.data pat.data

/-- The account-absence test of the TOTP login handler (part_002, second
script, line 113): the stringified error message contains one of the four
signatures. -/
def isAccountAbsence (msg : String) : Bool :=
  containsSub msg "No user configured" || containsSub msg "Authenticator not configured" ||
    containsSub msg "404" || containsSub msg "409"

/-- An HTTP request issued by the TOTP login handler, identified by endpoint
and the `totp_code` it carries. -/
inductive TotpRequest where
  | totpLogin (totp_code : String)
  | setupFirst (totp_code : String)
deriving DecidableEq, Repr

/-- Outcome of one `safeFetch` call of the TOTP page: a 2xx response with its
optional `redirect` field, or a thrown error carrying the extracted
message. -/
inductive CallResult where
  | success (redirect : Option String)
  | failure (msg : String)
deriving DecidableEq, Repr

/-- The TOTP login page state: the status line, its variant, and where
`window.location.href` was last assigned. -/
structure TotpState where
  status : String
  statusVariant : Variant
  navigatedTo : Option String
deriving DecidableEq, Repr

/-- `setStatus` of the TOTP login script (part_002 lines 52-57). -/
def setStatus (s : TotpState) (message : String) (variant : Variant) : TotpState :=
  { s with status := message, statusVariant := variant }

/-- The TOTP login form field (`FormData`): a missing input is `none`. -/
structure TotpFormData where
  totp_code : Option String
deriving DecidableEq, Repr

/-- The TOTP login-form submit handler (part_002 lines 98-126): `extractTotp`
trims the code and rejects an empty one with a validation message; otherwise
the code is POSTed to `/api/auth/totp-login`; on success navigate to
`redirect || "/app"`; on failure, if the error message matches an
account-absence signature, POST the same code to `/api/auth/setup-first`
(navigating or surfacing its error), otherwise rethrow so the login error is
surfaced.  `loginResult`/`setupResult` are the environment-supplied outcomes
of the two possible calls. -/
def totpLoginSubmit (d : TotpFormData) (loginResult setupResult : CallResult)
    (s : TotpState) : TotpState × List TotpRequest :=
  let totp_code := jsTrim (d.totp_code.getD "")
  if totp_code = "" then
    (setStatus s "Authenticator code is required." .error, [])
  else
    let s1 := setStatus s "Verifying code..." .muted
    match loginResult with
    | .success redirect =>
      ({ s1 with navigatedTo := some ((orJS redirect (some "/app")).getD "/app") },
       [.totpLogin totp_code])
    | .failure msg =>
      if isAccountAbsence msg then
        match setupResult with
        | .success redirect =>
          ({ s1 with navigatedTo := some ((orJS redirect (some "/app")).getD "/app") },
           [.totpLogin totp_code, .setupFirst totp_code])
        | .failure msg2 =>
          (setStatus s1 msg2 .error, [.totpLogin totp_code, .setupFirst totp_code])
      else
        (setStatus s1 msg .error, [.totpLogin totp_code])

/-- The initial TOTP page state. -/
def initTotpState : TotpState :=
  { status := "", statusVariant := .muted, navigatedTo := none }

end Totp

end ForsetiFlow

namespace ForsetiFlow

/-- C1 counterexample: for the non-2xx response with body `{"message": ""}`
the `message` field is present, so the claimed priority order surfaces `""`,
but the code (JS `||` skips the falsy empty string) surfaces the raw body
text instead. -/
theorem errorMessage_claim_counterexample :
    emptyMessageResponse.json = some ⟨some "", none⟩ ∧
    claimedErrorMessage emptyMessageResponse = "" ∧
    errorMessage emptyMessageResponse = "\x7b\"message\": \"\"\x7d" ∧
    errorMessage emptyMessageResponse ≠ claimedErrorMessage emptyMessageResponse := by
  refine ⟨rfl, rfl, rfl, ?_⟩
  decide

/-- C1 amended: on a non-success response, the surfaced error message is the
structured `message` field if present and non-empty, otherwise the structured
`error` field if present and non-empty, otherwise the raw body text if
non-empty, otherwise the HTTP status phrase if non-empty, otherwise
`"Request failed"`; in particular body `{"message": "Invalid code"}` surfaces
`"Invalid code"`, body `{"error": "bad"}` with no `message` surfaces `"bad"`,
and an empty body with HTTP 500 surfaces the status phrase. -/
theorem errorMessage_priority :
    (∀ r : ParsedResponse, errorMessage r = amendedErrorMessage r) ∧
    errorMessage invalidCodeResponse = "Invalid code" ∧
    errorMessage errorBadResponse = "bad" ∧
    errorMessage emptyBodyResponse = "Internal Server Error" := by
  refine ⟨?_, rfl, rfl, rfl⟩
  rintro ⟨ok, statusText, text, json⟩
  rcases json with _ | ⟨⟨m, e⟩⟩
  · simp only [errorMessage, amendedErrorMessage, orJS, truthyStr]
    split_ifs <;> simp_all
  · rcases m with _ | m <;> rcases e with _ | e <;>
      simp only [errorMessage, amendedErrorMessage, orJS, truthyStr, Option.getD] <;>
      split_ifs <;> simp_all

/-- C2 counterexample: after a successful `submitCredentials` and then
`backToCredentials`, the cached credentials are NOT cleared (`showLoginForm`
nulls only `pendingToken`), so a subsequent `resend` does not fail with the
StateError message — it issues a Start network call with the old
credentials. -/
theorem backToCredentials_counterexample :
    afterBackState.pendingToken = none ∧
    afterBackState.lastCredentials = some ⟨"a", "b"⟩ ∧
    (step afterBackState (.resend (.success ⟨some "tok2", none⟩))).2 = [.start ⟨"a", "b"⟩] ∧
    ("Submit your credentials before requesting another code.", Variant.error) ∉
      (step afterBackState (.resend (.success ⟨some "tok2", none⟩))).1.statusLog := by
  decide

/-- C2 amended: `backToCredentials` clears the pending token and the status
message and returns to `AwaitingCredentials`, but retains the cached
credentials; hence a subsequent `resend` without an intervening successful
`submitCredentials` does not fail — it re-issues Start with the previously
cached credentials (it fails with the StateError message only when no
credentials were ever cached). -/
theorem backToCredentials_behavior (s : ClientState) :
    (backToCredentials s).1.pendingToken = none ∧
    (backToCredentials s).1.status = "" ∧
    (backToCredentials s).1.ui = .AwaitingCredentials ∧
    (backToCredentials s).1.lastCredentials = s.lastCredentials ∧
    (backToCredentials s).2 = [] ∧
    (∀ credentials result, s.lastCredentials = some credentials →
      (resend result (backToCredentials s).1).2 = [.start credentials]) := by
  refine ⟨rfl, rfl, rfl, rfl, rfl, ?_⟩
  intro credentials result h
  simp [resend, backToCredentials, showLoginForm, setStatus, h, requestCode]
  cases result <;> rfl

/-- Witness for `backToCredentials_behavior` at a concrete state with cached
credentials. -/
theorem backToCredentials_behavior_witness :
    (resend (.success ⟨some "t2", none⟩)
      (backToCredentials { initState with lastCredentials := some ⟨"a", "b"⟩ }).1).2 =
      [.start ⟨"a", "b"⟩] :=
  (backToCredentials_behavior { initState with lastCredentials := some ⟨"a", "b"⟩ }).2.2.2.2.2
    ⟨"a", "b"⟩ (.success ⟨some "t2", none⟩) rfl

/-- C3: from every prior state with no (truthy) pending token, `submitCode`
issues no Verify network call, sets the "Verification expired. Please sign in
again." error message (recorded in the status log; `showLoginForm` then
blanks the visible line), and transitions to `AwaitingCredentials` with the
token still null. -/
theorem submitCode_no_token (s : ClientState) (d : VerifyFormData) (result : VerifyResult)
    (h : truthyStr s.pendingToken = false) :
    (submitCode d result s).2 = [] ∧
    (submitCode d result s).1.ui = .AwaitingCredentials ∧
    (submitCode d result s).1.pendingToken = none ∧
    (submitCode d result s).1.statusLog =
      s.statusLog ++ [("Verification expired. Please sign in again.", .error), ("", .muted)] := by
  simp [submitCode, h, showLoginForm, setStatus]

/-- Witness for `submitCode_no_token` at the initial state. -/
theorem submitCode_no_token_witness :
    (submitCode ⟨some "1234"⟩ (.failure "x") initState).2 = [] ∧
    (submitCode ⟨some "1234"⟩ (.failure "x") initState).1.ui = .AwaitingCredentials ∧
    (submitCode ⟨some "1234"⟩ (.failure "x") initState).1.pendingToken = none ∧
    (submitCode ⟨some "1234"⟩ (.failure "x") initState).1.statusLog =
      initState.statusLog ++ [("Verification expired. Please sign in again.", .error), ("", .muted)] :=
  submitCode_no_token initState ⟨some "1234"⟩ (.failure "x") (by decide)

/-- C4: for every identifier/password pair with the identifier or password
empty or missing, `submitCredentials` issues no network call and only sets
the "Username/email and password are required." error message; in particular
the visible form (the UI state) is unchanged, so the machine remains in
`AwaitingCredentials`. -/
theorem submitCredentials_empty_fields (s : ClientState) (d : LoginFormData)
    (result : StartResult)
    (h : d.identifier = none ∨ d.identifier = some "" ∨
         d.password = none ∨ d.password = some "") :
    submitCredentials d result s =
      (setStatus s "Username/email and password are required." .error, []) ∧
    (submitCredentials d result s).1.ui = s.ui ∧
    (submitCredentials d result s).1.pendingToken = s.pendingToken ∧
    (submitCredentials d result s).1.lastCredentials = s.lastCredentials := by
  obtain ⟨i, p⟩ := d
  have hmain : submitCredentials ⟨i, p⟩ result s =
      (setStatus s "Username/email and password are required." .error, []) := by
    rcases h with h | h | h | h <;> simp only at h <;> subst h <;>
      simp [submitCredentials, extractCredentials, show jsTrim "" = "" from rfl]
  refine ⟨hmain, ?_, ?_, ?_⟩ <;> rw [hmain] <;> rfl

/-- Witness for `submitCredentials_empty_fields` with a missing password. -/
theorem submitCredentials_empty_fields_witness :
    submitCredentials ⟨some "alice", none⟩ (.failure "x") initState =
      (setStatus initState "Username/email and password are required." .error, []) :=
  (submitCredentials_empty_fields initState ⟨some "alice", none⟩ (.failure "x")
    (Or.inr (Or.inr (Or.inl rfl)))).1

/-- Helper: `submitCode` never changes `lastCredentials`. -/
theorem submitCode_keeps_lastCredentials (d : VerifyFormData) (result : VerifyResult)
    (s : ClientState) :
    (submitCode d result s).1.lastCredentials = s.lastCredentials := by
  rcases result with p | m <;>
    simp only [submitCode, showLoginForm, setStatus] <;>
    split_ifs <;> rfl

/-- Helper: an operation that is not a validated, successful
`submitCredentials` cannot create cached credentials. -/
theorem lastCredentials_none_preserved (s : ClientState) (op : Op)
    (hs : s.lastCredentials = none) (hop : successfulStartOp op = false) :
    (step s op).1.lastCredentials = none := by
  cases op with
  | submitCredentials d result =>
    rcases result with p | m
    · have hd : (jsTrim (d.identifier.getD "") = "" ∨ d.password.getD "" = "") := by
        simpa [validFormData, successfulStartOp, Decidable.or_iff_not_and_not] using hop
      simp [step, submitCredentials, extractCredentials, hd, hs, setStatus]
    · simp only [step, submitCredentials, extractCredentials]
      split_ifs
      · simpa [setStatus] using hs
      · simpa [requestCode, setStatus] using hs
  | submitCode d result => simpa [step, submitCode_keeps_lastCredentials] using hs
  | resend result => simp [step, resend, hs, setStatus]
  | backToCredentials => simpa [step, backToCredentials, showLoginForm, setStatus] using hs

/-- Helper: along any run containing no validated successful
`submitCredentials`, the cached credentials stay null. -/
theorem run_no_successful_start (ops : List Op) :
    ∀ s : ClientState, s.lastCredentials = none →
      (∀ op ∈ ops, successfulStartOp op = false) →
      (run s ops).lastCredentials = none := by
  induction ops with
  | nil => intro s hs _; exact hs
  | cons op ops ih =>
    intro s hs hops
    simp only [run]
    exact ih _ (lastCredentials_none_preserved s op hs (hops op (by simp)))
      (fun o ho => hops o (by simp [ho]))

/-- C5: after every sequence of operations containing no validated successful
`submitCredentials`, `resend` issues no network call and sets the
"Submit your credentials before requesting another code." StateError
message. -/
theorem resend_without_successful_start (ops : List Op) (result : StartResult)
    (h : ∀ op ∈ ops, successfulStartOp op = false) :
    (run initState ops).lastCredentials = none ∧
    (step (run initState ops) (.resend result)).2 = [] ∧
    (step (run initState ops) (.resend result)).1.status =
      "Submit your credentials before requesting another code." ∧
    (step (run initState ops) (.resend result)).1.statusVariant = .error := by
  have hnone := run_no_successful_start ops initState rfl h
  refine ⟨hnone, ?_, ?_, ?_⟩ <;> simp [step, resend, hnone, setStatus]

/-- Witness for `resend_without_successful_start` on a concrete sequence: a
failed code entry, a back-navigation, an invalid credentials submission, and
a failed Start. -/
theorem resend_without_successful_start_witness :
    (run initState resendWitnessOps).lastCredentials = none ∧
    (step (run initState resendWitnessOps) (.resend (.success ⟨some "t", none⟩))).2 = [] ∧
    (step (run initState resendWitnessOps) (.resend (.success ⟨some "t", none⟩))).1.status =
      "Submit your credentials before requesting another code." ∧
    (step (run initState resendWitnessOps) (.resend (.success ⟨some "t", none⟩))).1.statusVariant = .error :=
  resend_without_successful_start resendWitnessOps (.success ⟨some "t", none⟩) (by decide)

/-- Helper: `requestCode` always issues exactly the Start request with the
credentials it was given. -/
theorem requestCode_requests (c : Credentials) (result : StartResult) (s : ClientState) :
    (requestCode c result s).2 = [.start c] := by
  cases result <;> rfl

/-- Helper: with credentials cached, `resend` issues exactly one Start
request carrying those credentials. -/
theorem resend_with_credentials (c : Credentials) (result : StartResult) (s : ClientState)
    (h : s.lastCredentials = some c) :
    (resend result s).2 = [.start c] := by
  simp [resend, h, requestCode_requests]

/-- C6: after one successful `submitCredentials` with
`{identifier: "a", password: "b"}`, `resend` re-issues the Start request with
exactly the cached credentials `{a, b}` — both immediately and after an
intervening failed `submitCode` attempt. -/
theorem resend_reuses_credentials (sp : StartPayload) (d2 : VerifyFormData) (msg : String)
    (result result2 : StartResult) :
    (run initState [.submitCredentials ⟨some "a", some "b"⟩ (.success sp)]).lastCredentials =
      some ⟨"a", "b"⟩ ∧
    (step (run initState [.submitCredentials ⟨some "a", some "b"⟩ (.success sp)])
      (.resend result)).2 = [.start ⟨"a", "b"⟩] ∧
    (step (run initState [.submitCredentials ⟨some "a", some "b"⟩ (.success sp),
        .submitCode d2 (.failure msg)]) (.resend result2)).2 = [.start ⟨"a", "b"⟩] := by
  have h1 : (run initState [.submitCredentials ⟨some "a", some "b"⟩ (.success sp)]).lastCredentials =
      some ⟨"a", "b"⟩ := by
    simp [run, step, submitCredentials, extractCredentials, show jsTrim "a" = "a" from rfl,
      requestCode, showVerificationForm, setStatus]
  have h2 : (run initState [.submitCredentials ⟨some "a", some "b"⟩ (.success sp),
      .submitCode d2 (.failure msg)]).lastCredentials = some ⟨"a", "b"⟩ := by
    simpa [run, step, submitCode_keeps_lastCredentials] using h1
  exact ⟨h1, resend_with_credentials _ result _ h1, resend_with_credentials _ result2 _ h2⟩

/-- C7: on a successful Verify response, `submitCode` navigates to
`redirect || "/app"`; in particular with `{redirect: "/account"}` it
navigates to `/account`, and with no `redirect` field to the default
`/app`. -/
theorem verify_success_navigates (s : ClientState) (d : VerifyFormData)
    (payload : VerifyPayload)
    (htok : truthyStr s.pendingToken = true)
    (hcode : jsTrim (d.code.getD "") ≠ "") :
    (submitCode d (.success payload) s).1.navigatedTo =
      some ((orJS payload.redirect (some "/app")).getD "/app") ∧
    (payload.redirect = some "/account" →
      (submitCode d (.success payload) s).1.navigatedTo = some "/account") ∧
    (payload.redirect = none →
      (submitCode d (.success payload) s).1.navigatedTo = some "/app") := by
  have hmain : (submitCode d (.success payload) s).1.navigatedTo =
      some ((orJS payload.redirect (some "/app")).getD "/app") := by
    simp [submitCode, htok, hcode, setStatus]
  refine ⟨hmain, ?_, ?_⟩ <;> intro hr <;> rw [hmain, hr]
  · rcases h : truthyStr (some "/account") with _ | _
    · simp [truthyStr] at h
    · simp [orJS, h]
  · simp [orJS, truthyStr]

/-- Witness for `verify_success_navigates` at a concrete verifying state. -/
theorem verify_success_navigates_witness :
    (submitCode ⟨some "123456"⟩ (.success ⟨some "/account"⟩)
      { initState with pendingToken := some "tok" }).1.navigatedTo = some "/account" :=
  (verify_success_navigates { initState with pendingToken := some "tok" } ⟨some "123456"⟩
    ⟨some "/account"⟩ (by decide) (by decide)).2.1 rfl

/-- C9: when the Start HTTP call fails (non-2xx or transport failure, both
surfacing as a caught error), `submitCredentials` and `resend` leave
`pendingToken` and `lastCredentials` exactly as they were; in particular
after a failed `resend` from a state holding token `t`, `submitCode` with a
non-empty code still issues the Verify request with `t`. -/
theorem start_failure_atomic (s : ClientState) (d : LoginFormData) (msg1 msg2 : String) :
    (submitCredentials d (.failure msg1) s).1.pendingToken = s.pendingToken ∧
    (submitCredentials d (.failure msg1) s).1.lastCredentials = s.lastCredentials ∧
    (resend (.failure msg2) s).1.pendingToken = s.pendingToken ∧
    (resend (.failure msg2) s).1.lastCredentials = s.lastCredentials ∧
    (∀ t c result, s.pendingToken = some t → t ≠ "" → jsTrim c ≠ "" →
      (submitCode ⟨some c⟩ result (resend (.failure msg2) s).1).2 =
        [.verify t (jsTrim c)]) := by
  have hsc : (submitCredentials d (.failure msg1) s).1.pendingToken = s.pendingToken ∧
      (submitCredentials d (.failure msg1) s).1.lastCredentials = s.lastCredentials := by
    simp only [submitCredentials, extractCredentials]
    split_ifs <;> exact ⟨rfl, rfl⟩
  have hr : (resend (.failure msg2) s).1.pendingToken = s.pendingToken ∧
      (resend (.failure msg2) s).1.lastCredentials = s.lastCredentials := by
    rcases hc : s.lastCredentials with _ | c <;> simp [resend, hc, setStatus, requestCode]
  refine ⟨hsc.1, hsc.2, hr.1, hr.2, ?_⟩
  intro t c result ht htne hcne
  have htok : (resend (.failure msg2) s).1.pendingToken = some t := by rw [hr.1, ht]
  have htruthy : truthyStr (resend (.failure msg2) s).1.pendingToken = true := by
    rw [htok]; simpa [truthyStr] using htne
  cases result <;> simp [submitCode, htruthy, hcne, htok, setStatus, truthyStr, htne]

/-- Witness for `start_failure_atomic` at a concrete mid-handshake state. -/
theorem start_failure_atomic_witness :
    (submitCode ⟨some "99"⟩ (.failure "e") (resend (.failure "down") tokenState).1).2 =
      [.verify "tok" (jsTrim "99")] :=
  (start_failure_atomic tokenState ⟨some "a", some "b"⟩ "boom" "down").2.2.2.2
    "tok" "99" (.failure "e") rfl (by decide) (by decide)

/-- C10: the invariant "a non-null `pendingToken` implies a non-null
`lastCredentials`" holds initially and is preserved by every operation (the
two fields are only assigned together on a successful Start, and
`showLoginForm` nulls only the token); consequently whenever a truthy
pending token exists, credentials are cached and `resend` can issue its
Start request. -/
theorem pendingToken_implies_lastCredentials :
    Inv initState ∧
    (∀ (s : ClientState) (op : Op), Inv s → Inv (step s op).1) ∧
    (∀ (s : ClientState) (result : StartResult), Inv s →
      truthyStr s.pendingToken = true →
      ∃ credentials, s.lastCredentials = some credentials ∧
        (resend result s).2 = [.start credentials]) := by
  refine ⟨by simp [Inv, initState], ?_, ?_⟩
  · intro s op h
    cases op with
    | submitCredentials d result =>
      rcases result with p | m <;>
        simp only [step, submitCredentials, extractCredentials] <;> split_ifs
      · simpa [Inv, setStatus] using h
      · intro _
        simp [requestCode, showVerificationForm, setStatus]
      · simpa [Inv, setStatus] using h
      · simpa [Inv, requestCode, setStatus] using h
    | submitCode d result =>
      rcases result with p | m <;> simp only [step, submitCode] <;> split_ifs <;>
        first
          | (intro hpt; exact absurd rfl hpt)
          | exact h
    | resend result =>
      rcases hc : s.lastCredentials with _ | c
      · simpa [step, resend, hc, Inv, setStatus] using h
      · rcases result with p | m
        · intro _
          simp [step, resend, hc, requestCode, showVerificationForm, setStatus]
        · simp [step, resend, hc, Inv, requestCode, setStatus]
    | backToCredentials =>
      intro hpt
      exact absurd rfl hpt
  · intro s result h htruthy
    have hpt : s.pendingToken ≠ none := by
      rcases hp : s.pendingToken with _ | t
      · rw [hp] at htruthy; simp [truthyStr] at htruthy
      · simp
    rcases hc : s.lastCredentials with _ | c
    · exact absurd hc (h hpt)
    · exact ⟨c, rfl, resend_with_credentials c result s hc⟩

/-- Witness for `pendingToken_implies_lastCredentials` at a concrete
mid-handshake state and a concrete operation. -/
theorem pendingToken_implies_lastCredentials_witness :
    Inv (step tokenState .backToCredentials).1 ∧
    ∃ credentials, tokenState.lastCredentials = some credentials ∧
      (resend (.failure "down") tokenState).2 = [.start credentials] :=
  ⟨pendingToken_implies_lastCredentials.2.1 tokenState .backToCredentials (by decide),
   pendingToken_implies_lastCredentials.2.2 tokenState (.failure "down") (by decide) (by decide)⟩

namespace Totp

/-- C8: for every non-empty submitted code, the TOTP handler's first request
is `POST /api/auth/totp-login` with the trimmed code; it issues
`POST /api/auth/setup-first` with the same code exactly when the login call
failed with an error message matching an account-absence signature; and any
other login failure is surfaced (status set to the message, error variant)
without calling setup-first. -/
theorem totp_login_fallback (d : TotpFormData) (loginResult setupResult : CallResult)
    (s : TotpState)
    (h : jsTrim (d.totp_code.getD "") ≠ "") :
    (totpLoginSubmit d loginResult setupResult s).2.head? =
      some (.totpLogin (jsTrim (d.totp_code.getD ""))) ∧
    (TotpRequest.setupFirst (jsTrim (d.totp_code.getD "")) ∈
        (totpLoginSubmit d loginResult setupResult s).2 ↔
      ∃ msg, loginResult = .failure msg ∧ isAccountAbsence msg = true) ∧
    (∀ msg, loginResult = .failure msg → isAccountAbsence msg = false →
      (totpLoginSubmit d loginResult setupResult s).2 =
        [.totpLogin (jsTrim (d.totp_code.getD ""))] ∧
      (totpLoginSubmit d loginResult setupResult s).1.status = msg ∧
      (totpLoginSubmit d loginResult setupResult s).1.statusVariant = .error) := by
  rcases loginResult with redirect | msg
  · refine ⟨by simp [totpLoginSubmit, h], by simp [totpLoginSubmit, h], ?_⟩
    intro m hm
    cases hm
  · rcases hA : isAccountAbsence msg with _ | _
    · refine ⟨by simp [totpLoginSubmit, h, hA], ?_, ?_⟩
      · simp only [totpLoginSubmit, h, hA]
        simp [hA]
      · rintro m hm hAm
        injection hm with hmm
        subst hmm
        exact ⟨by simp [totpLoginSubmit, h, hA], by simp [totpLoginSubmit, h, hA, setStatus],
          by simp [totpLoginSubmit, h, hA, setStatus]⟩
    · refine ⟨?_, ?_, ?_⟩
      · cases setupResult <;> simp [totpLoginSubmit, h, hA]
      · constructor
        · intro _
          exact ⟨msg, rfl, hA⟩
        · intro _
          cases setupResult <;> simp [totpLoginSubmit, h, hA]
      · rintro m hm hAm
        injection hm with hmm
        subst hmm
        rw [hA] at hAm
        cases hAm

/-- Witness for `totp_login_fallback` at a concrete no-account fallback
scenario. -/
theorem totp_login_fallback_witness :
    (totpLoginSubmit ⟨some "246810"⟩ (.failure "No user configured") (.success none)
        initTotpState).2.head? = some (.totpLogin (jsTrim "246810")) ∧
    (TotpRequest.setupFirst (jsTrim "246810") ∈
        (totpLoginSubmit ⟨some "246810"⟩ (.failure "No user configured") (.success none)
          initTotpState).2 ↔
      ∃ msg, CallResult.failure "No user configured" = .failure msg ∧
        isAccountAbsence msg = true) :=
  ⟨(totp_login_fallback ⟨some "246810"⟩ (.failure "No user configured") (.success none)
      initTotpState (by decide)).1,
   (totp_login_fallback ⟨some "246810"⟩ (.failure "No user configured") (.success none)
      initTotpState (by decide)).2.1⟩

end Totp

end ForsetiFlow
